import Mathlib

/-!
Verification of the session-token registry and lifecycle endpoints of the
GameLift Streams sample web application.

The backend server (`src/bin/cdk.ts`, server portion) keeps an in-memory map
`connectionDatabase` from connection tokens to session metadata and exposes
four lifecycle endpoints: `/api/CreateStreamSession`, `/api/GetSignalResponse`,
`/api/ReconnectStreamSession`, `/api/DestroyStreamSession`, plus a periodic
expired-token cleanup sweep. Each handler is embedded below as a pure function:
the provider SDK call that a handler makes is modelled by passing the
provider's result as an explicit argument, and the handler's output records
which provider request (if any) was issued, the HTTP response, and the updated
registry. Times are integer milliseconds (`Date.now()`).
-/

namespace GLS

/-- One entry of `connectionDatabase` (cdk.ts:551-555):
`{ StreamGroupId, StreamSessionArn, Timestamp }`. `StreamGroupId` is
`Option String` because in local mode it is copied from the request body and
may be absent (JS `undefined`). -/
structure ConnectionData where
  StreamGroupId : Option String
  StreamSessionArn : String
  Timestamp : Int
deriving DecidableEq, Repr

/-- The in-memory token database, as an association list (JS object keyed by
token string). -/
abbrev Registry := List (String × ConnectionData)

/-- `connectionDatabase[t]`: first entry with key `t`, if any. -/
def lookupToken (db : Registry) (t : String) : Option ConnectionData :=
  (db.find? (fun p => p.1 == t)).map (·.2)

/-- `delete connectionDatabase[t]`. -/
def removeToken (db : Registry) (t : String) : Registry :=
  db.filter (fun p => p.1 != t)

/-- `connectionDatabase[t] = r` (fresh random token, so at most replaces). -/
def insertToken (db : Registry) (t : String) (r : ConnectionData) : Registry :=
  (t, r) :: removeToken db t

/-- JS falsiness of an optional string: `undefined` and `''` are falsy. -/
def jsFalsy : Option String → Bool
  | none => true
  | some s => s == ""

/-- The token lookup guard shared by GetSignalResponse (cdk.ts:601),
ReconnectStreamSession (cdk.ts:733) and DestroyStreamSession (cdk.ts:812):
`const connectionData = req.body.Token && connectionDatabase[req.body.Token]`.
A missing or empty-string token short-circuits to a falsy value; otherwise the
database is consulted. Returns the token string together with the record. -/
def tokenGuard (db : Registry) (tok : Option String) : Option (String × ConnectionData) :=
  match tok with
  | none => none
  | some t => if t == "" then none else (lookupToken db t).map (fun d => (t, d))

/-- Server configuration constants consumed by the handlers
(`config.js`): connection-token timeout in seconds and the generic
server-error status code (502). -/
structure Config where
  STREAM_CONNECTION_TIMEOUT_SECONDS : Int
  GENERAL_ERROR_STATUS_CODE : Nat
deriving DecidableEq, Repr

/-- JSON response bodies the four endpoints can produce. -/
inductive RespBody where
  | empty
  | signal (s : String)
  | token (t : String)
  | error (msg : String)
deriving DecidableEq, Repr

structure HttpResponse where
  status : Nat
  body : RespBody
deriving DecidableEq, Repr

/-- Request data passed to `getStreamSession` / `terminateStreamSession`:
`{ Identifier, StreamSessionIdentifier }`. -/
structure SessionQuery where
  Identifier : Option String
  StreamSessionIdentifier : String
deriving DecidableEq, Repr

/-- Request data passed to `createStreamSessionConnection` (cdk.ts:743-747). -/
structure ConnRequest where
  Identifier : Option String
  StreamSessionIdentifier : String
  SignalRequest : Option String
deriving DecidableEq, Repr

/-- Provider reply to `getStreamSession`: `{ Status, SignalResponse }`. -/
structure StreamSessionData where
  Status : String
  SignalResponse : String
deriving DecidableEq, Repr

/-- Outcome of one GetSignalResponse request: the HTTP response and the
`getStreamSession` request issued to the provider, if any. (The handler never
mutates the registry.) -/
structure PollOutcome where
  response : HttpResponse
  providerCall : Option SessionQuery
deriving DecidableEq, Repr

/-- `app.post('/api/GetSignalResponse')` (cdk.ts:589-696).
`overrideProtocol` models the presence of the `--override_protocol` process
flag and `protocolTransform` the JSON rewrite it applies to an ACTIVE
payload (including its parse-failure fallback); with the flag absent the
payload is passed through unchanged. `provider` is the result of the
`getStreamSession` call (only consulted when the handler reaches it). -/
def getSignalResponse (cfg : Config) (overrideProtocol : Bool)
    (protocolTransform : String → String)
    (db : Registry) (tok : Option String) (now : Int)
    (provider : Except String StreamSessionData) : PollOutcome :=
  match tokenGuard db tok with
  | none =>
      { response := ⟨404, .error "Connection data not found"⟩, providerCall := none }
  | some (_, connectionData) =>
      -- `if (!connectionData || !connectionData.StreamGroupId)` (cdk.ts:602)
      if jsFalsy connectionData.StreamGroupId then
        { response := ⟨404, .error "Connection data not found"⟩, providerCall := none }
      -- `if (Date.now() - connectionData.Timestamp > config.STREAM_CONNECTION_TIMEOUT_SECONDS * 1000)` (cdk.ts:610)
      else if now - connectionData.Timestamp > cfg.STREAM_CONNECTION_TIMEOUT_SECONDS * 1000 then
        { response := ⟨404, .error "Connection token expired"⟩, providerCall := none }
      else
        let q : SessionQuery :=
          ⟨connectionData.StreamGroupId, connectionData.StreamSessionArn⟩
        match provider with
        | .error e =>
            -- rethrown as `Failed to get stream session: ...`, caught at the
            -- endpoint boundary and answered with generalErrorStatusCode (502)
            { response := ⟨502, .error ("Failed to get stream session: " ++ e)⟩,
              providerCall := some q }
        | .ok d =>
            -- `switch (streamSessionData.Status)` (cdk.ts:645)
            if d.Status == "ACTIVATING" then
              { response := ⟨200, .signal ""⟩, providerCall := some q }
            else if d.Status == "ACTIVE" then
              let sig :=
                if overrideProtocol then protocolTransform d.SignalResponse
                else d.SignalResponse
              { response := ⟨200, .signal sig⟩, providerCall := some q }
            else
              { response := ⟨404, .error "Unexpected stream status"⟩,
                providerCall := some q }

/-- Outcome of one ReconnectStreamSession request. -/
structure ReconnectOutcome where
  response : HttpResponse
  registry : Registry
  providerCall : Option ConnRequest
deriving DecidableEq, Repr

/-- `app.post('/api/ReconnectStreamSession')` (cdk.ts:723-761). `provider` is
the result of `createStreamSessionConnection`, carrying the new
`SignalResponse` on success. The registry is never mutated. -/
def reconnectStreamSession (db : Registry) (tok : Option String)
    (signalRequest : Option String)
    (provider : Except String String) : ReconnectOutcome :=
  match tokenGuard db tok with
  | none =>
      { response := ⟨404, .empty⟩, registry := db, providerCall := none }
  | some (_, connectionData) =>
      let q : ConnRequest :=
        ⟨connectionData.StreamGroupId, connectionData.StreamSessionArn, signalRequest⟩
      match provider with
      | .error _ =>
          { response := ⟨502, .empty⟩, registry := db, providerCall := some q }
      | .ok sig =>
          { response := ⟨200, .signal sig⟩, registry := db, providerCall := some q }

/-- Outcome of one DestroyStreamSession request. -/
structure DestroyOutcome where
  response : HttpResponse
  registry : Registry
  providerCall : Option SessionQuery
deriving DecidableEq, Repr

/-- `app.post('/api/DestroyStreamSession')` (cdk.ts:802-839). `provider` is the
result of `terminateStreamSession`. On provider success the token is purged
immediately (cdk.ts:836); on failure the registry is untouched. -/
def destroyStreamSession (db : Registry) (tok : Option String)
    (provider : Except String Unit) : DestroyOutcome :=
  match tokenGuard db tok with
  | none =>
      { response := ⟨404, .empty⟩, registry := db, providerCall := none }
  | some (t, connectionData) =>
      let q : SessionQuery :=
        ⟨connectionData.StreamGroupId, connectionData.StreamSessionArn⟩
      match provider with
      | .error _ =>
          { response := ⟨502, .empty⟩, registry := db, providerCall := some q }
      | .ok _ =>
          { response := ⟨200, .empty⟩, registry := removeToken db t,
            providerCall := some q }

/-- Request body of `/api/CreateStreamSession`; absent JSON fields are `none`. -/
structure CreateRequest where
  StreamGroupId : Option String
  UserId : Option String
  ApplicationIdentifier : Option String
  SignalRequest : Option String
  AdditionalLaunchArgs : Option (List String)
  AdditionalEnvironmentVariables : Option (List (String × String))
  Locations : Option (List String)
deriving DecidableEq, Repr

/-- `requestData` passed to `startStreamSession` (cdk.ts:530-541). -/
structure StartRequest where
  Identifier : Option String
  AdditionalLaunchArgs : Option (List String)
  AdditionalEnvironmentVariables : Option (List (String × String))
  UserId : Option String
  SignalRequest : Option String
  ConnectionTimeoutSeconds : Int
  SessionLengthSeconds : Int
  ApplicationIdentifier : Option String
  Locations : Option (List String)
deriving DecidableEq, Repr

/-- Outcome of one CreateStreamSession request: response, updated registry,
the `startStreamSession` request issued (if any), and the deferred deletions
scheduled via `setTimeout` as (token, delay-ms) pairs. -/
structure CreateOutcome where
  response : HttpResponse
  registry : Registry
  providerCall : Option StartRequest
  scheduledRemovals : List (String × Int)
deriving DecidableEq, Repr

/-- `app.post('/api/CreateStreamSession')` (cdk.ts:503-560). In local mode the
stream group id is taken from the request body with no check; in Lambda mode it
comes from the `STREAM_GROUP_ID` environment variable and a falsy value is
rejected with 500 before the provider is contacted. `provider` is the result
of `startStreamSession`, carrying `data.Arn` on success; `freshToken` is the
`crypto.randomUUID()` value minted for a successful create. -/
def createStreamSession (cfg : Config) (isLocal : Bool)
    (envStreamGroupId : Option String) (req : CreateRequest) (db : Registry)
    (provider : Except String String) (freshToken : String) (now : Int) :
    CreateOutcome :=
  let streamGroupId : Option String :=
    if isLocal then req.StreamGroupId else envStreamGroupId
  if !isLocal && jsFalsy envStreamGroupId then
    { response := ⟨500, .error "STREAM_GROUP_ID not configured"⟩,
      registry := db, providerCall := none, scheduledRemovals := [] }
  else
    let rq : StartRequest :=
      { Identifier := streamGroupId
        AdditionalLaunchArgs := req.AdditionalLaunchArgs
        AdditionalEnvironmentVariables := req.AdditionalEnvironmentVariables
        UserId := req.UserId
        SignalRequest := req.SignalRequest
        ConnectionTimeoutSeconds := cfg.STREAM_CONNECTION_TIMEOUT_SECONDS
        SessionLengthSeconds := 3600
        ApplicationIdentifier := req.ApplicationIdentifier
        Locations := req.Locations }
    match provider with
    | .error msg =>
        { response := ⟨cfg.GENERAL_ERROR_STATUS_CODE, .error msg⟩,
          registry := db, providerCall := some rq, scheduledRemovals := [] }
    | .ok arn =>
        { response := ⟨200, .token freshToken⟩,
          registry := insertToken db freshToken
            ⟨streamGroupId, arn, now⟩,
          providerCall := some rq,
          scheduledRemovals := [(freshToken, 24 * 60 * 60 * 1000)] }

/-- The periodic token cleanup job (cdk.ts:873-881): remove every entry with
`now - data.Timestamp > config.STREAM_CONNECTION_TIMEOUT_SECONDS * 1000`. -/
def cleanupSweep (cfg : Config) (now : Int) (db : Registry) : Registry :=
  db.filter (fun p =>
    !(decide (now - p.2.Timestamp > cfg.STREAM_CONNECTION_TIMEOUT_SECONDS * 1000)))

/-- The `validateStreamSession` middleware chain as written in the source
(cdk.ts:319-345): `ApplicationIdentifier` and `StreamGroupId` must be
non-empty and, after trimming, at most 256 characters; the array/object
fields are optional. Note: this chain is declared in the source but is not
attached to any route. -/
def validateStreamSessionOk (req : CreateRequest) : Bool :=
  (match req.ApplicationIdentifier with
   | none => false
   | some s => !s.isEmpty && s.trim.length ≤ 256)
  && (match req.StreamGroupId with
      | none => false
      | some s => !s.isEmpty && s.trim.length ≤ 256)

/-! ### Basic registry lemmas -/

theorem lookupToken_eq_none_iff {db : Registry} {t : String} :
    lookupToken db t = none ↔ ∀ p ∈ db, p.1 ≠ t := by
  simp [lookupToken, List.find?_eq_none]

theorem lookupToken_removeToken_self (db : Registry) (t : String) :
    lookupToken (removeToken db t) t = none := by
  rw [lookupToken_eq_none_iff]
  intro p hp
  simp only [removeToken, List.mem_filter, bne_iff_ne, ne_eq] at hp
  exact hp.2

theorem tokenGuard_removeToken_self (db : Registry) (t : String) :
    tokenGuard (removeToken db t) (some t) = none := by
  simp [tokenGuard, lookupToken_removeToken_self]

theorem lookupToken_cleanupSweep_eq_none (cfg : Config) (now : Int)
    (db : Registry) (t : String)
    (hall : ∀ p ∈ db, p.1 = t →
      now - p.2.Timestamp > cfg.STREAM_CONNECTION_TIMEOUT_SECONDS * 1000) :
    lookupToken (cleanupSweep cfg now db) t = none := by
  rw [lookupToken_eq_none_iff]
  intro p hp
  simp only [cleanupSweep, List.mem_filter, Bool.not_eq_true', decide_eq_false_iff_not,
    not_lt] at hp
  intro hpt
  exact absurd (hall p hp.1 hpt) (not_lt.mpr hp.2)

theorem lookupToken_cons (a : String × ConnectionData) (l : Registry) (t : String) :
    lookupToken (a :: l) t = if a.1 == t then some a.2 else lookupToken l t := by
  rw [lookupToken, List.find?_cons]
  cases hat : (a.1 == t) with
  | true => simp [hat]
  | false => simp [hat, lookupToken]

theorem cleanupSweep_cons (cfg : Config) (now : Int)
    (a : String × ConnectionData) (l : Registry) :
    cleanupSweep cfg now (a :: l) =
      if now - a.2.Timestamp > cfg.STREAM_CONNECTION_TIMEOUT_SECONDS * 1000 then
        cleanupSweep cfg now l
      else a :: cleanupSweep cfg now l := by
  by_cases h : now - a.2.Timestamp > cfg.STREAM_CONNECTION_TIMEOUT_SECONDS * 1000
  · rw [if_pos h, cleanupSweep, List.filter_cons]
    simp [h, cleanupSweep]
  · rw [if_neg h, cleanupSweep, List.filter_cons]
    simp [h, cleanupSweep]

theorem lookupToken_cleanupSweep_of_live (cfg : Config) (now : Int) :
    ∀ (db : Registry) (t : String) (rec : ConnectionData),
    lookupToken db t = some rec →
    ¬ (now - rec.Timestamp > cfg.STREAM_CONNECTION_TIMEOUT_SECONDS * 1000) →
    lookupToken (cleanupSweep cfg now db) t = some rec := by
  intro db
  induction db with
  | nil => intro t rec h _; simp [lookupToken] at h
  | cons a l ih =>
    intro t rec h hlive
    rw [lookupToken_cons] at h
    by_cases hat : (a.1 == t) = true
    · have hrec : a.2 = rec := by
        simpa [hat] using h
      have hkeep : ¬ (now - a.2.Timestamp >
          cfg.STREAM_CONNECTION_TIMEOUT_SECONDS * 1000) := by
        rw [hrec]; exact hlive
      rw [cleanupSweep_cons, if_neg hkeep, lookupToken_cons]
      simp [hat, hrec]
    · have hat' : (a.1 == t) = false := by
        simpa using hat
      have htail : lookupToken l t = some rec := by
        simpa [hat'] using h
      have ihres := ih t rec htail hlive
      rw [cleanupSweep_cons]
      by_cases hexp : now - a.2.Timestamp > cfg.STREAM_CONNECTION_TIMEOUT_SECONDS * 1000
      · rw [if_pos hexp]; exact ihres
      · rw [if_neg hexp, lookupToken_cons]
        simpa [hat'] using ihres

/-! ### Shared concrete instances (for witnesses and counterexamples) -/

/-- The shipped configuration values (`config.js`):
`STREAM_CONNECTION_TIMEOUT_SECONDS = 600`, `GENERAL_ERROR_STATUS_CODE = 502`. -/
def sampleConfig : Config := ⟨600, 502⟩

def sampleRecord : ConnectionData := ⟨some "sg-1", "arn:1", 0⟩

def sampleRegistry : Registry := [("t", sampleRecord)]

/-! ### Claims -/

/-- **C1.** For every Poll Signal request whose token maps to a live
(unexpired) registry record with a usable stream group id, and with the
`--override_protocol` flag absent, the response is determined solely by the
provider-reported session status: `ACTIVATING` yields success with an empty
SignalResponse; `ACTIVE` yields success with the provider's payload unchanged;
any other status yields a 404 error. -/
theorem C1_poll_state_mapping (cfg : Config) (protocolTransform : String → String)
    (db : Registry) (t : String) (rec : ConnectionData) (now : Int)
    (d : StreamSessionData)
    (ht : (t == "") = false) (hlook : lookupToken db t = some rec)
    (hsg : jsFalsy rec.StreamGroupId = false)
    (hlive : now - rec.Timestamp ≤ cfg.STREAM_CONNECTION_TIMEOUT_SECONDS * 1000) :
    (d.Status = "ACTIVATING" →
      getSignalResponse cfg false protocolTransform db (some t) now (Except.ok d)
        = ⟨⟨200, .signal ""⟩, some ⟨rec.StreamGroupId, rec.StreamSessionArn⟩⟩)
    ∧ (d.Status = "ACTIVE" →
      getSignalResponse cfg false protocolTransform db (some t) now (Except.ok d)
        = ⟨⟨200, .signal d.SignalResponse⟩,
           some ⟨rec.StreamGroupId, rec.StreamSessionArn⟩⟩)
    ∧ (d.Status ≠ "ACTIVATING" → d.Status ≠ "ACTIVE" →
      (getSignalResponse cfg false protocolTransform db (some t) now
          (Except.ok d)).response
        = ⟨404, .error "Unexpected stream status"⟩) := by
  have hnot : ¬ (now - rec.Timestamp > cfg.STREAM_CONNECTION_TIMEOUT_SECONDS * 1000) :=
    not_lt.mpr hlive
  refine ⟨fun h1 => ?_, fun h1 => ?_, fun h1 h2 => ?_⟩ <;>
    simp [getSignalResponse, tokenGuard, ht, hlook, hsg, hnot, h1]
  · simp [h2]

/-- Witness for C1 at a concrete live record and an `ACTIVE` provider reply. -/
theorem C1_poll_state_mapping_witness :
    getSignalResponse sampleConfig false id sampleRegistry (some "t") 0
      (Except.ok ⟨"ACTIVE", "ANSWER"⟩)
      = ⟨⟨200, .signal "ANSWER"⟩, some ⟨some "sg-1", "arn:1"⟩⟩ :=
  (C1_poll_state_mapping sampleConfig id sampleRegistry "t" sampleRecord 0
      ⟨"ACTIVE", "ANSWER"⟩ (by decide) (by decide) (by decide) (by decide)).2.1 rfl

/-- **C2, counterexample.** The claim says a token whose record's age exceeds
the configured timeout is answered not-found by every token-taking endpoint.
At the concrete record aged 10000000 ms (timeout 600000 ms), Destroy answers
200 (and removes the record) and Reconnect answers 200 — not 404. Only Poll
Signal checks the record's age. -/
theorem C2_counterexample :
    (10000000 : Int) - sampleRecord.Timestamp
        > sampleConfig.STREAM_CONNECTION_TIMEOUT_SECONDS * 1000
    ∧ lookupToken sampleRegistry "t" = some sampleRecord
    ∧ (destroyStreamSession sampleRegistry (some "t")
        (Except.ok ())).response.status = 200
    ∧ (reconnectStreamSession sampleRegistry (some "t") (some "OFFER")
        (Except.ok "ANSWER")).response.status = 200 := by
  decide

/-- **C2, amended.** Every token that was never issued or already removed is
answered not-found (404) by Poll Signal, Reconnect and Destroy alike. A token
whose record's age exceeds the configured timeout but has not yet been swept
is rejected with 404 only by Poll Signal (which also makes no provider call);
Reconnect and Destroy do not check the record's age and proceed to contact the
provider exactly as for a live record. -/
theorem C2_amended_lookup_semantics (cfg : Config) (overrideProtocol : Bool)
    (protocolTransform : String → String) (db : Registry) (tok : Option String)
    (now : Int) (sig : Option String)
    (provGet : Except String StreamSessionData) (provConn : Except String String)
    (provTerm : Except String Unit) :
    (tokenGuard db tok = none →
      (getSignalResponse cfg overrideProtocol protocolTransform db tok now
          provGet).response.status = 404
      ∧ (reconnectStreamSession db tok sig provConn).response.status = 404
      ∧ (destroyStreamSession db tok provTerm).response.status = 404)
    ∧ (∀ t rec, tok = some t → (t == "") = false → lookupToken db t = some rec →
        now - rec.Timestamp > cfg.STREAM_CONNECTION_TIMEOUT_SECONDS * 1000 →
        ((getSignalResponse cfg overrideProtocol protocolTransform db tok now
            provGet).response.status = 404
          ∧ (getSignalResponse cfg overrideProtocol protocolTransform db tok now
              provGet).providerCall = none)
        ∧ (reconnectStreamSession db tok sig provConn).providerCall ≠ none
        ∧ (destroyStreamSession db tok provTerm).providerCall ≠ none) := by
  constructor
  · intro h
    refine ⟨?_, ?_, ?_⟩ <;>
      simp [getSignalResponse, reconnectStreamSession, destroyStreamSession, h]
  · rintro t rec rfl ht hlook hexp
    have hguard : tokenGuard db (some t) = some (t, rec) := by
      simp [tokenGuard, ht, hlook]
    refine ⟨?_, ?_, ?_⟩
    · by_cases hsg : jsFalsy rec.StreamGroupId = true
      · constructor <;> simp [getSignalResponse, hguard, hsg]
      · constructor <;> simp [getSignalResponse, hguard, hsg, hexp]
    · cases provConn <;> simp [reconnectStreamSession, hguard]
    · cases provTerm <;> simp [destroyStreamSession, hguard]

/-- Witness for C2's amended statement: an unknown token is answered 404 by
Destroy, while Destroy of the expired-but-unswept sample record still issues a
provider terminate call. -/
theorem C2_amended_lookup_semantics_witness :
    (destroyStreamSession sampleRegistry (some "zzz")
        (Except.ok ())).response.status = 404
    ∧ (destroyStreamSession sampleRegistry (some "t")
        (Except.ok ())).providerCall ≠ none :=
  ⟨((C2_amended_lookup_semantics sampleConfig false id sampleRegistry
        (some "zzz") 0 none (Except.ok ⟨"ACTIVE", ""⟩) (Except.ok "")
        (Except.ok ())).1 (by decide)).2.2,
   ((C2_amended_lookup_semantics sampleConfig false id sampleRegistry
        (some "t") 10000000 none (Except.ok ⟨"ACTIVE", ""⟩) (Except.ok "")
        (Except.ok ())).2 "t" sampleRecord rfl (by decide) (by decide)
        (by decide)).2.2⟩

/-- **C3.** Destroy contract: an absent token yields 404 with the registry
untouched and no provider call; a present token yields a provider terminate
call — on provider success the record is removed immediately and 200 returned,
on provider failure the record stays and 502 is returned; and after a
successful Destroy, a second Destroy of the same token yields 404. -/
theorem C3_destroy_contract (db : Registry) (tok : Option String)
    (provTerm provTerm2 : Except String Unit) :
    (tokenGuard db tok = none →
      destroyStreamSession db tok provTerm = ⟨⟨404, .empty⟩, db, none⟩)
    ∧ (∀ t rec, tok = some t → (t == "") = false → lookupToken db t = some rec →
        (destroyStreamSession db tok (Except.ok ())
            = ⟨⟨200, .empty⟩, removeToken db t,
               some ⟨rec.StreamGroupId, rec.StreamSessionArn⟩⟩)
        ∧ (∀ e, destroyStreamSession db tok (Except.error e)
            = ⟨⟨502, .empty⟩, db,
               some ⟨rec.StreamGroupId, rec.StreamSessionArn⟩⟩)
        ∧ (destroyStreamSession
              (destroyStreamSession db tok (Except.ok ())).registry tok provTerm2
            ).response.status = 404) := by
  constructor
  · intro h
    simp [destroyStreamSession, h]
  · rintro t rec rfl ht hlook
    have hguard : tokenGuard db (some t) = some (t, rec) := by
      simp [tokenGuard, ht, hlook]
    refine ⟨?_, fun e => ?_, ?_⟩
    · simp [destroyStreamSession, hguard]
    · simp [destroyStreamSession, hguard]
    · have hreg : (destroyStreamSession db (some t) (Except.ok ())).registry
          = removeToken db t := by
        simp [destroyStreamSession, hguard]
      rw [hreg]
      simp [destroyStreamSession, tokenGuard_removeToken_self]

/-- Witness for C3: destroying the sample token with a succeeding provider
returns 200 and leaves the registry empty. -/
theorem C3_destroy_contract_witness :
    destroyStreamSession sampleRegistry (some "t") (Except.ok ())
      = ⟨⟨200, .empty⟩, [], some ⟨some "sg-1", "arn:1"⟩⟩ := by
  have h := ((C3_destroy_contract sampleRegistry (some "t") (Except.ok ())
      (Except.ok ())).2 "t" sampleRecord rfl (by decide) (by decide)).1
  rw [h]
  decide

/-- **C4.** Failed-create atomicity: whenever the provider start-stream-session
call fails, Create returns the configured general error status with the
provider's message, no token is returned, the registry is unchanged and no
deferred removal is scheduled. -/
theorem C4_create_failure_atomicity (cfg : Config) (isLocal : Bool)
    (envStreamGroupId : Option String) (req : CreateRequest) (db : Registry)
    (msg freshToken : String) (now : Int)
    (hreach : isLocal = true ∨ jsFalsy envStreamGroupId = false) :
    (createStreamSession cfg isLocal envStreamGroupId req db
        (Except.error msg) freshToken now).response
        = ⟨cfg.GENERAL_ERROR_STATUS_CODE, .error msg⟩
    ∧ (createStreamSession cfg isLocal envStreamGroupId req db
        (Except.error msg) freshToken now).registry = db
    ∧ (createStreamSession cfg isLocal envStreamGroupId req db
        (Except.error msg) freshToken now).scheduledRemovals = []
    ∧ ∀ tk, (createStreamSession cfg isLocal envStreamGroupId req db
        (Except.error msg) freshToken now).response.body ≠ .token tk := by
  have hguard : (!isLocal && jsFalsy envStreamGroupId) = false := by
    rcases hreach with h | h <;> simp [h]
  simp [createStreamSession, hguard]

/-- Request body with every field absent. -/
def emptyCreateRequest : CreateRequest := ⟨none, none, none, none, none, none, none⟩

/-- Witness for C4 at a concrete failing create in local mode. -/
theorem C4_create_failure_atomicity_witness :
    (createStreamSession sampleConfig true none emptyCreateRequest sampleRegistry
        (Except.error "boom") "fresh" 0).registry = sampleRegistry :=
  (C4_create_failure_atomicity sampleConfig true none emptyCreateRequest
      sampleRegistry "boom" "fresh" 0 (Or.inl rfl)).2.1

/-- **C5.** Reconnect contract: an absent token yields 404 with no provider
call and no registry change; a present token yields a provider
create-connection call against the stored session handle with the new offer,
the registry is never mutated, and on provider success the new answer payload
is returned with status 200. -/
theorem C5_reconnect_contract (db : Registry) (tok : Option String)
    (sig : Option String) (provConn : Except String String) :
    (tokenGuard db tok = none →
      reconnectStreamSession db tok sig provConn = ⟨⟨404, .empty⟩, db, none⟩)
    ∧ (∀ t rec, tok = some t → (t == "") = false → lookupToken db t = some rec →
        (reconnectStreamSession db tok sig provConn).providerCall
            = some ⟨rec.StreamGroupId, rec.StreamSessionArn, sig⟩
        ∧ (reconnectStreamSession db tok sig provConn).registry = db
        ∧ (∀ ans, provConn = Except.ok ans →
            (reconnectStreamSession db tok sig provConn).response
              = ⟨200, .signal ans⟩)) := by
  constructor
  · intro h
    simp [reconnectStreamSession, h]
  · rintro t rec rfl ht hlook
    have hguard : tokenGuard db (some t) = some (t, rec) := by
      simp [tokenGuard, ht, hlook]
    cases provConn with
    | error e => simp [reconnectStreamSession, hguard]
    | ok ans => simp [reconnectStreamSession, hguard]

/-- Witness for C5: reconnecting the sample token with a succeeding provider
issues the expected connection request and returns the new answer. -/
theorem C5_reconnect_contract_witness :
    (reconnectStreamSession sampleRegistry (some "t") (some "OFFER")
        (Except.ok "ANSWER")).providerCall
      = some ⟨some "sg-1", "arn:1", some "OFFER"⟩ :=
  ((C5_reconnect_contract sampleRegistry (some "t") (some "OFFER")
      (Except.ok "ANSWER")).2 "t" sampleRecord rfl (by decide) (by decide)).1

/-- For a request that passes the token lookup, the stream-group check and the
age check, GetSignalResponse always issues the provider query built from the
stored record, whatever the provider then replies. -/
theorem getSignalResponse_providerCall_of_live (cfg : Config)
    (overrideProtocol : Bool) (protocolTransform : String → String)
    (db : Registry) (t : String) (rec : ConnectionData) (now : Int)
    (provGet : Except String StreamSessionData)
    (ht : (t == "") = false) (hlook : lookupToken db t = some rec)
    (hsg : jsFalsy rec.StreamGroupId = false)
    (hnot : ¬ (now - rec.Timestamp > cfg.STREAM_CONNECTION_TIMEOUT_SECONDS * 1000)) :
    (getSignalResponse cfg overrideProtocol protocolTransform db (some t) now
        provGet).providerCall
      = some ⟨rec.StreamGroupId, rec.StreamSessionArn⟩ := by
  have hguard : tokenGuard db (some t) = some (t, rec) := by
    simp [tokenGuard, ht, hlook]
  cases provGet with
  | error e => simp [getSignalResponse, hguard, hsg, hnot]
  | ok d =>
    by_cases h1 : (d.Status == "ACTIVATING") = true <;>
      by_cases h2 : (d.Status == "ACTIVE") = true <;>
      simp [getSignalResponse, hguard, hsg, hnot, h1, h2]

/-- **C6.** TTL expiry through the lookup-then-check-age path: a record
created at time `rec.Timestamp` is still retrievable by Poll Signal (the
provider is queried) at every instant strictly before creation plus the
configured timeout, and at every instant strictly after that bound Poll
Signal answers 404 without querying the provider — both on the unswept
registry and after the cleanup sweep has run. -/
theorem C6_ttl_expiry (cfg : Config) (overrideProtocol : Bool)
    (protocolTransform : String → String) (db : Registry) (t : String)
    (rec : ConnectionData) (now : Int) (provGet : Except String StreamSessionData)
    (ht : (t == "") = false) (hlook : lookupToken db t = some rec)
    (hsg : jsFalsy rec.StreamGroupId = false)
    (hall : ∀ p ∈ db, p.1 = t → p.2 = rec) :
    (now < rec.Timestamp + cfg.STREAM_CONNECTION_TIMEOUT_SECONDS * 1000 →
      (getSignalResponse cfg overrideProtocol protocolTransform db (some t) now
          provGet).providerCall
        = some ⟨rec.StreamGroupId, rec.StreamSessionArn⟩)
    ∧ (now > rec.Timestamp + cfg.STREAM_CONNECTION_TIMEOUT_SECONDS * 1000 →
        ((getSignalResponse cfg overrideProtocol protocolTransform db (some t)
            now provGet).response.status = 404
          ∧ (getSignalResponse cfg overrideProtocol protocolTransform db (some t)
              now provGet).providerCall = none)
        ∧ ((getSignalResponse cfg overrideProtocol protocolTransform
              (cleanupSweep cfg now db) (some t) now provGet).response.status = 404
          ∧ (getSignalResponse cfg overrideProtocol protocolTransform
              (cleanupSweep cfg now db) (some t) now provGet).providerCall
              = none)) := by
  constructor
  · intro hlt
    exact getSignalResponse_providerCall_of_live cfg overrideProtocol
      protocolTransform db t rec now provGet ht hlook hsg (by omega)
  · intro hgt
    have hexp : now - rec.Timestamp > cfg.STREAM_CONNECTION_TIMEOUT_SECONDS * 1000 := by
      omega
    have hguard : tokenGuard db (some t) = some (t, rec) := by
      simp [tokenGuard, ht, hlook]
    have hswept : lookupToken (cleanupSweep cfg now db) t = none :=
      lookupToken_cleanupSweep_eq_none cfg now db t
        (fun p hp hpt => by rw [hall p hp hpt]; exact hexp)
    refine ⟨⟨?_, ?_⟩, ⟨?_, ?_⟩⟩
    · simp [getSignalResponse, hguard, hsg, hexp]
    · simp [getSignalResponse, hguard, hsg, hexp]
    · simp [getSignalResponse, tokenGuard, ht, hswept]
    · simp [getSignalResponse, tokenGuard, ht, hswept]

/-- Witness for C6: the sample record (created at 0, timeout 600000 ms) is
still retrievable at time 1. -/
theorem C6_ttl_expiry_witness :
    (getSignalResponse sampleConfig false id sampleRegistry (some "t") 1
        (Except.ok ⟨"ACTIVATING", ""⟩)).providerCall
      = some ⟨some "sg-1", "arn:1"⟩ :=
  (C6_ttl_expiry sampleConfig false id sampleRegistry "t" sampleRecord 1
      (Except.ok ⟨"ACTIVATING", ""⟩) (by decide) (by decide) (by decide)
      (by decide)).1 (by decide)

/-- **C7.** The claim says malformed Create requests are rejected before the
provider is contacted. The source defines the `validateStreamSession`
middleware chain (cdk.ts:319-345) but never attaches it to the
`/api/CreateStreamSession` route (cdk.ts:503), so a local-mode Create request
whose body is entirely empty — which fails that validator — is still forwarded
to the provider `startStreamSession` call and, on provider success, is
answered 200 with a fresh token instead of a 400 validation error. -/
theorem C7_create_skips_validation :
    validateStreamSessionOk emptyCreateRequest = false
    ∧ (createStreamSession sampleConfig true none emptyCreateRequest []
        (Except.ok "arn:1") "fresh" 0).providerCall
        = some ⟨none, none, none, none, none, 600, 3600, none, none⟩
    ∧ (createStreamSession sampleConfig true none emptyCreateRequest []
        (Except.ok "arn:1") "fresh" 0).response = ⟨200, .token "fresh"⟩ := by
  decide

/-- **C9.** A request to Poll Signal, Reconnect or Destroy whose body omits
the Token field or carries an empty-string token is answered 404 with no
provider call and no registry mutation: the lookup guard short-circuits on a
falsy token. -/
theorem C9_falsy_token_guard (cfg : Config) (overrideProtocol : Bool)
    (protocolTransform : String → String) (db : Registry) (now : Int)
    (sig : Option String) (provGet : Except String StreamSessionData)
    (provConn : Except String String) (provTerm : Except String Unit)
    (tok : Option String) (h : tok = none ∨ tok = some "") :
    getSignalResponse cfg overrideProtocol protocolTransform db tok now provGet
      = ⟨⟨404, .error "Connection data not found"⟩, none⟩
    ∧ reconnectStreamSession db tok sig provConn = ⟨⟨404, .empty⟩, db, none⟩
    ∧ destroyStreamSession db tok provTerm = ⟨⟨404, .empty⟩, db, none⟩ := by
  have hguard : tokenGuard db tok = none := by
    rcases h with rfl | rfl <;> simp [tokenGuard]
  refine ⟨?_, ?_, ?_⟩ <;>
    simp [getSignalResponse, reconnectStreamSession, destroyStreamSession, hguard]

/-- Witness for C9 at an empty-string token against the sample registry. -/
theorem C9_falsy_token_guard_witness :
    getSignalResponse sampleConfig false id sampleRegistry (some "") 0
      (Except.ok ⟨"ACTIVE", "ANSWER"⟩)
      = ⟨⟨404, .error "Connection data not found"⟩, none⟩ :=
  (C9_falsy_token_guard sampleConfig false id sampleRegistry 0 none
      (Except.ok ⟨"ACTIVE", "ANSWER"⟩) (Except.ok "") (Except.ok ())
      (some "") (Or.inr rfl)).1

/-- **C10.** Expiry boundary: a record whose age equals the configured timeout
exactly is still treated as live — Poll Signal's age check (strict `>`) lets
the request through to the provider, and the cleanup sweep (also strict `>`)
keeps the entry. -/
theorem C10_expiry_boundary (cfg : Config) (overrideProtocol : Bool)
    (protocolTransform : String → String) (db : Registry) (t : String)
    (rec : ConnectionData) (now : Int) (provGet : Except String StreamSessionData)
    (ht : (t == "") = false) (hlook : lookupToken db t = some rec)
    (hsg : jsFalsy rec.StreamGroupId = false)
    (hb : now - rec.Timestamp = cfg.STREAM_CONNECTION_TIMEOUT_SECONDS * 1000) :
    (getSignalResponse cfg overrideProtocol protocolTransform db (some t) now
        provGet).providerCall = some ⟨rec.StreamGroupId, rec.StreamSessionArn⟩
    ∧ lookupToken (cleanupSweep cfg now db) t = some rec := by
  have hnot : ¬ (now - rec.Timestamp
      > cfg.STREAM_CONNECTION_TIMEOUT_SECONDS * 1000) := by omega
  exact ⟨getSignalResponse_providerCall_of_live cfg overrideProtocol
      protocolTransform db t rec now provGet ht hlook hsg hnot,
    lookupToken_cleanupSweep_of_live cfg now db t rec hlook hnot⟩

/-- Witness for C10: at time exactly 600000 ms after creation the sample
record is still polled against the provider and survives the sweep. -/
theorem C10_expiry_boundary_witness :
    (getSignalResponse sampleConfig false id sampleRegistry (some "t") 600000
        (Except.ok ⟨"ACTIVATING", ""⟩)).providerCall
        = some ⟨some "sg-1", "arn:1"⟩
    ∧ lookupToken (cleanupSweep sampleConfig 600000 sampleRegistry) "t"
        = some sampleRecord :=
  C10_expiry_boundary sampleConfig false id sampleRegistry "t" sampleRecord
    600000 (Except.ok ⟨"ACTIVATING", ""⟩) (by decide) (by decide) (by decide)
    (by decide)

/-! ### Browser signaling flow (`src/server/public/stream.js`)

`appStartStreaming` and `appReconnectStreaming` are `async` functions whose
bodies are straight-line sequences of awaited steps inside a `try`; any step
may throw, at which point control jumps to the `catch` block (and then the
`finally` block, for `appStartStreaming`). We embed each flow as the list of
observable UI events it emits, parameterised by the number of completed
`GetSignalResponse` poll iterations and by the index of the step at which the
failure occurs: the resulting trace is the events of the completed prefix
followed by the catch (and finally) events. -/

/-- Observable browser-side events: panel switches, closing the local WebRTC
peer (`window.myGameLiftStreams.close()`), loading-screen control, backend
posts, applying a signal response, and neutral bookkeeping steps. -/
inductive UiEvent where
  | showPanel (name : String)
  | closePeer
  | loadingStart
  | loadingStop
  | post (endpoint : String)
  | processSignal
  | step (tag : String)
deriving DecidableEq, Repr

/-- Events of the `appStartStreaming` try-body up to and including the
CreateStreamSession post (stream.js:65-101). -/
def appStartBeforePoll : List UiEvent :=
  [.step "handleOrientation", .step "preStreamAudioSetup",
   .showPanel "appConnecting", .step "disableMetricsButton", .loadingStart,
   .step "generateSignalRequest", .post "/api/CreateStreamSession"]

/-- Events of the `appStartStreaming` try-body after the poll loop
(stream.js:117-153). -/
def appStartAfterPoll : List UiEvent :=
  [.processSignal, .loadingStop, .step "setQueryParams",
   .showPanel "appStreaming", .step "fullscreenLayout"]

/-- The full `appStartStreaming` try-body with `pollCount` completed
GetSignalResponse iterations (stream.js:108-114). -/
def appStartSteps (pollCount : Nat) : List UiEvent :=
  appStartBeforePoll
    ++ List.replicate pollCount (.post "/api/GetSignalResponse")
    ++ appStartAfterPoll

/-- The `appStartStreaming` catch block (stream.js:155-159):
`LoadingScreenStop(); ...; window.myGameLiftStreams.close();
appShowPanel('appError')`. -/
def appStartCatch : List UiEvent :=
  [.loadingStop, .closePeer, .showPanel "appError"]

/-- The `appStartStreaming` finally block (stream.js:160-167). -/
def appStartFinally : List UiEvent := [.step "preStreamAudioCleanup"]

/-- Trace of an `appStartStreaming` attempt that fails after `failAt` steps of
the try-body, with `pollCount` poll iterations in that body. -/
def appStartStreamingErrorTrace (pollCount failAt : Nat) : List UiEvent :=
  ((appStartSteps pollCount).take failAt) ++ appStartCatch ++ appStartFinally

/-- The `appReconnectStreaming` try-body (stream.js:179-201). -/
def appReconnectSteps : List UiEvent :=
  [.showPanel "appConnecting", .loadingStart, .step "generateSignalRequest",
   .post "/api/ReconnectStreamSession", .processSignal, .loadingStop,
   .showPanel "appStreaming"]

/-- The `appReconnectStreaming` catch block (stream.js:202-207). -/
def appReconnectCatch : List UiEvent :=
  [.loadingStop, .closePeer, .showPanel "appReconnectError"]

/-- Trace of an `appReconnectStreaming` attempt failing after `failAt` steps. -/
def appReconnectStreamingErrorTrace (failAt : Nat) : List UiEvent :=
  (appReconnectSteps.take failAt) ++ appReconnectCatch

/-- Scans a trace: `true` iff the peer-close event occurs strictly before the
first display of panel `panelName` (or that panel is never displayed). -/
def closedBeforePanel (panelName : String) : List UiEvent → Bool
  | [] => true
  | e :: rest =>
      if e = UiEvent.showPanel panelName then false
      else if e = UiEvent.closePeer then true
      else closedBeforePanel panelName rest

/-- The panel left on screen at the end of a trace. -/
def lastShownPanel (l : List UiEvent) : Option String :=
  l.foldl (fun acc e => match e with | .showPanel p => some p | _ => acc) none

theorem closedBeforePanel_append_of_benign (p : String) :
    ∀ (l m : List UiEvent),
    (∀ e ∈ l, e ≠ UiEvent.showPanel p ∧ e ≠ UiEvent.closePeer) →
    closedBeforePanel p (l ++ m) = closedBeforePanel p m := by
  intro l
  induction l with
  | nil => intro m _; rfl
  | cons a l ih =>
    intro m h
    have ha := h a (by simp)
    rw [List.cons_append, closedBeforePanel, if_neg ha.1, if_neg ha.2]
    exact ih m (fun e he => h e (List.mem_cons_of_mem a he))

theorem appStartSteps_benign (pollCount : Nat) :
    ∀ e ∈ appStartSteps pollCount,
      e ≠ UiEvent.showPanel "appError" ∧ e ≠ UiEvent.closePeer := by
  have hA : ∀ x ∈ appStartBeforePoll,
      x ≠ UiEvent.showPanel "appError" ∧ x ≠ UiEvent.closePeer := by decide
  have hC : ∀ x ∈ appStartAfterPoll,
      x ≠ UiEvent.showPanel "appError" ∧ x ≠ UiEvent.closePeer := by decide
  intro e he
  rcases List.mem_append.mp he with h | h
  · rcases List.mem_append.mp h with h | h
    · exact hA e h
    · rw [List.eq_of_mem_replicate h]
      decide
  · exact hC e h

theorem appReconnectSteps_benign :
    ∀ e ∈ appReconnectSteps,
      e ≠ UiEvent.showPanel "appReconnectError" ∧ e ≠ UiEvent.closePeer := by
  decide

/-- **C8.** Browser error path: however far the streaming flow gets before an
error — whether in `appStartStreaming` (any step, any number of completed
signal polls) or in `appReconnectStreaming` — the resulting event trace closes
the local WebRTC peer strictly before the terminal error panel is displayed,
and the panel left on screen at the end of the attempt is the error panel, so
no partial success remains displayed. -/
theorem C8_error_path_closes_peer (pollCount failAt failAtReconnect : Nat) :
    closedBeforePanel "appError"
        (appStartStreamingErrorTrace pollCount failAt) = true
    ∧ lastShownPanel (appStartStreamingErrorTrace pollCount failAt)
        = some "appError"
    ∧ closedBeforePanel "appReconnectError"
        (appReconnectStreamingErrorTrace failAtReconnect) = true
    ∧ lastShownPanel (appReconnectStreamingErrorTrace failAtReconnect)
        = some "appReconnectError" := by
  have hbenignS : ∀ e ∈ (appStartSteps pollCount).take failAt,
      e ≠ UiEvent.showPanel "appError" ∧ e ≠ UiEvent.closePeer :=
    fun e he => appStartSteps_benign pollCount e (List.take_subset _ _ he)
  have hbenignR : ∀ e ∈ appReconnectSteps.take failAtReconnect,
      e ≠ UiEvent.showPanel "appReconnectError" ∧ e ≠ UiEvent.closePeer :=
    fun e he => appReconnectSteps_benign e (List.take_subset _ _ he)
  refine ⟨?_, ?_, ?_, ?_⟩
  · rw [appStartStreamingErrorTrace, List.append_assoc,
      closedBeforePanel_append_of_benign _ _ _ hbenignS]
    decide
  · rw [appStartStreamingErrorTrace, List.append_assoc]
    simp only [lastShownPanel, List.foldl_append]
    rfl
  · rw [appReconnectStreamingErrorTrace,
      closedBeforePanel_append_of_benign _ _ _ hbenignR]
    decide
  · rw [appReconnectStreamingErrorTrace]
    simp only [lastShownPanel, List.foldl_append]
    rfl

end GLS
